import Mathlib

/-!
Verification of the GiSaWeb knowledge-base permissions feature.

The first part embeds the TypeScript client code
(`src/lib/apis/knowledge/index.ts` and
`src/lib/components/admin/Knowledge/EditPermissionsModal.svelte`) as pure
Lean functions.  The second part models, from the specification, the
authorization core (`can`, `normalize`, `applyBulk`) whose implementation
lives in the backend and is not part of the reviewed sources.
-/

/-- First-occurrence deduplication of a list of ids.  This is the Lean
rendering of the JavaScript idiom `[...new Set(list)]`, which keeps the
first occurrence of each element in insertion order. -/
def dedupFirst : List String → List String
  | [] => []
  | x :: xs => x :: dedupFirst (xs.filter (fun a => a != x))
termination_by l => l.length
decreasing_by
  simp only [List.length_cons]
  exact Nat.lt_succ_of_le (List.length_filter_le _ _)

theorem mem_dedupFirst (a : String) (l : List String) :
    a ∈ dedupFirst l ↔ a ∈ l := by
  induction l using dedupFirst.induct with
  | case1 => simp [dedupFirst]
  | case2 x xs ih =>
    rw [dedupFirst]
    constructor
    · intro h
      rcases List.mem_cons.mp h with h | h
      · exact h ▸ List.mem_cons_self x xs
      · have := ih.mp h
        exact List.mem_cons_of_mem x (List.mem_of_mem_filter this)
    · intro h
      rcases List.mem_cons.mp h with h | h
      · exact h ▸ List.mem_cons_self _ _
      · by_cases hax : a = x
        · exact hax ▸ List.mem_cons_self _ _
        · refine List.mem_cons_of_mem x (ih.mpr ?_)
          refine List.mem_filter.mpr ⟨h, ?_⟩
          simp [hax]

theorem nodup_dedupFirst (l : List String) : (dedupFirst l).Nodup := by
  induction l using dedupFirst.induct with
  | case1 => simp [dedupFirst]
  | case2 x xs ih =>
    rw [dedupFirst]
    refine List.nodup_cons.mpr ⟨?_, ih⟩
    intro hx
    have := List.mem_filter.mp ((mem_dedupFirst x _).mp hx)
    simp at this

theorem dedupFirst_eq_self (l : List String) (h : l.Nodup) :
    dedupFirst l = l := by
  induction l with
  | nil => rw [dedupFirst]
  | cons x xs ih =>
    rw [dedupFirst]
    have hx : xs.filter (fun a => a != x) = xs := by
      refine List.filter_eq_self.mpr ?_
      intro a ha
      have : a ≠ x := fun e => (List.nodup_cons.mp h).1 (e ▸ ha)
      simp [this]
    rw [hx, ih (List.nodup_cons.mp h).2]

theorem dedupFirst_idem (l : List String) :
    dedupFirst (dedupFirst l) = dedupFirst l :=
  dedupFirst_eq_self _ (nodup_dedupFirst l)

/-! ## The TypeScript client data model (`src/lib/apis/knowledge/index.ts`) -/

/-- TS `interface KnowledgePermission`: both id lists are optional. -/
structure KnowledgePermission where
  group_ids : Option (List String)
  user_ids : Option (List String)
deriving Repr, DecidableEq

/-- TS `interface KnowledgePermissionsForm`: both capabilities optional.
`Object.keys` of the runtime object counts exactly the fields that are
present, which the `Option` fields record. -/
structure KnowledgePermissionsForm where
  read : Option KnowledgePermission
  write : Option KnowledgePermission
deriving Repr, DecidableEq

/-- The inline `access_control` object type used by
`KnowledgePermissionsResponse` and `BulkPermissionsForm`. -/
structure KBAccessControl where
  read : Option KnowledgePermission
  write : Option KnowledgePermission
deriving Repr, DecidableEq

/-- A user reference as returned by the permissions listing. -/
structure UserRef where
  id : String
  name : String
  email : String
deriving Repr, DecidableEq

/-- A group reference as returned by the permissions listing. -/
structure GroupRef where
  id : String
  name : String
deriving Repr, DecidableEq

/-- TS `interface KnowledgePermissionsResponse`. -/
structure KnowledgePermissionsResponse where
  id : String
  name : String
  description : String
  user_id : String
  access_control : Option KBAccessControl
  users_with_read_access : List UserRef
  users_with_write_access : List UserRef
  groups_with_read_access : List GroupRef
  groups_with_write_access : List GroupRef
deriving Repr, DecidableEq

/-- TS `interface BulkPermissionsForm`. -/
structure BulkPermissionsForm where
  knowledge_base_ids : List String
  access_control : KBAccessControl
deriving Repr, DecidableEq

/-- A raw knowledge-base record as delivered by the backend listing
endpoint (typed `any` in the source); every field the transform in
`getAllKnowledgePermissions` touches may be absent. -/
structure RawKnowledgeBase where
  id : String
  name : String
  description : Option String
  user_id : Option String
  access_control : Option KBAccessControl
  users_with_read_access : Option (List UserRef)
  users_with_write_access : Option (List UserRef)
  groups_with_read_access : Option (List GroupRef)
  groups_with_write_access : Option (List GroupRef)
deriving Repr, DecidableEq

/-- The per-record transform inside `getAllKnowledgePermissions`
(`index.ts` lines 510-520): `kb.user_id || ''`, `kb.description || ''`
and `|| []` fallbacks.  For string and array fields the JavaScript `||`
fallback agrees with `Option.getD` (an absent or empty string yields `''`;
an absent array yields `[]`, a present one is kept, empty arrays being
truthy). -/
def transformKnowledgeBase (kb : RawKnowledgeBase) : KnowledgePermissionsResponse :=
  { id := kb.id
    name := kb.name
    description := kb.description.getD ""
    user_id := kb.user_id.getD ""
    access_control := kb.access_control
    users_with_read_access := kb.users_with_read_access.getD []
    users_with_write_access := kb.users_with_write_access.getD []
    groups_with_read_access := kb.groups_with_read_access.getD []
    groups_with_write_access := kb.groups_with_write_access.getD [] }

/-- `getAllKnowledgePermissions` (`index.ts` lines 481-521), restricted to
its pure part: the HTTP fetch and response-shape unwrapping deliver a list
of raw records, which are mapped through the transform above. -/
def getAllKnowledgePermissions (kbs : List RawKnowledgeBase) :
    List KnowledgePermissionsResponse :=
  kbs.map transformKnowledgeBase

/-- `Object.keys(permissions).length` for a `KnowledgePermissionsForm`. -/
def formKeyCount (p : KnowledgePermissionsForm) : Nat :=
  (if p.read.isSome then 1 else 0) + (if p.write.isSome then 1 else 0)

/-- The `access_control` value placed in the request body by
`updateKnowledgePermissions` (`index.ts` line 550):
`Object.keys(permissions).length === 0 ? null : permissions`. -/
def updateKnowledgePermissionsBody (permissions : KnowledgePermissionsForm) :
    Option KnowledgePermissionsForm :=
  if formKeyCount permissions = 0 then none else some permissions

/-! ## The edit-permissions modal (`EditPermissionsModal.svelte`) -/

/-- `knowledgeBase.access_control?.read?.user_ids || []` (resetForm). -/
def kbReadUserIds (kb : KnowledgePermissionsResponse) : List String :=
  ((kb.access_control.bind KBAccessControl.read).bind
    KnowledgePermission.user_ids).getD []

/-- `knowledgeBase.access_control?.write?.user_ids || []` (resetForm). -/
def kbWriteUserIds (kb : KnowledgePermissionsResponse) : List String :=
  ((kb.access_control.bind KBAccessControl.write).bind
    KnowledgePermission.user_ids).getD []

/-- `knowledgeBase.access_control?.read?.group_ids || []` (resetForm). -/
def kbReadGroupIds (kb : KnowledgePermissionsResponse) : List String :=
  ((kb.access_control.bind KBAccessControl.read).bind
    KnowledgePermission.group_ids).getD []

/-- `knowledgeBase.access_control?.write?.group_ids || []` (resetForm). -/
def kbWriteGroupIds (kb : KnowledgePermissionsResponse) : List String :=
  ((kb.access_control.bind KBAccessControl.write).bind
    KnowledgePermission.group_ids).getD []

/-- The `isPublic` flag computed by `resetForm` (modal lines 50-54):
`hasAccessControl = knowledgeBase.access_control &&
(knowledgeBase.access_control.read || knowledgeBase.access_control.write)`
and `isPublic = !hasAccessControl`, with JavaScript truthiness (a present
object, even empty, is truthy; an absent field is falsy). -/
def resetFormIsPublic (kb : KnowledgePermissionsResponse) : Bool :=
  !(kb.access_control.isSome &&
    ((kb.access_control.bind KBAccessControl.read).isSome ||
     (kb.access_control.bind KBAccessControl.write).isSome))

/-- `userIds = [...new Set([...readUsers, ...writeUsers])]` (resetForm). -/
def resetFormUserIds (kb : KnowledgePermissionsResponse) : List String :=
  dedupFirst (kbReadUserIds kb ++ kbWriteUserIds kb)

/-- `groupIds = [...new Set([...readGroups, ...writeGroups])]` (resetForm). -/
def resetFormGroupIds (kb : KnowledgePermissionsResponse) : List String :=
  dedupFirst (kbReadGroupIds kb ++ kbWriteGroupIds kb)

/-- The `permissions` object built by `handleSave` (modal lines 111-125):
empty when `isPublic`, otherwise the same `userIds`/`groupIds` pair is
assigned to both `read` and `write`. -/
def handleSavePermissions (isPublic : Bool) (userIds groupIds : List String) :
    KnowledgePermissionsForm :=
  if isPublic then { read := none, write := none }
  else
    { read := some { user_ids := some userIds, group_ids := some groupIds }
      write := some { user_ids := some userIds, group_ids := some groupIds } }

/-- The `bulkForm` built by `applyBulkPermissions` in the bulk-actions
panel (lines 445-457 of the second script): the same
`bulkUserIds`/`bulkGroupIds` pair is assigned to both `read` and `write`. -/
def applyBulkPermissionsForm (selected bulkUserIds bulkGroupIds : List String) :
    BulkPermissionsForm :=
  { knowledge_base_ids := selected
    access_control :=
      { read := some { user_ids := some bulkUserIds, group_ids := some bulkGroupIds }
        write := some { user_ids := some bulkUserIds, group_ids := some bulkGroupIds } } }

/-! ## The authorization core modelled from the specification

The resolver, the normalizer and the bulk applier are implemented in the
backend (`backend/open_webui/routers/knowledge.py` and
`backend/open_webui/utils/access_control.py` per the implementation
notes), which is not part of the reviewed sources; they are modelled here
from the specification. -/

/-- Modelled from the spec: the `Principal` data model of section 3 — the
requesting user id together with its externally resolved group ids. -/
structure Principal where
  user_id : String
  group_ids : List String
deriving Repr, DecidableEq

/-- Modelled from the spec: the `AccessList` data model of section 3 —
user ids and group ids granting one capability. -/
structure AccessList where
  user_ids : List String
  group_ids : List String
deriving Repr, DecidableEq

/-- Modelled from the spec: an `AccessControl` object.  The `read` and
`write` keys may each be absent (`normalize` defaults a missing one to an
empty `AccessList`, and `can` must stay total on such policies). -/
structure AccessControl where
  read : Option AccessList
  write : Option AccessList
deriving Repr, DecidableEq

/-- Modelled from the spec: the `ResourcePolicy` data model of section 3;
`access_control = none` means public. -/
structure ResourcePolicy where
  resource_id : String
  owner_id : String
  access_control : Option AccessControl
deriving Repr, DecidableEq

/-- Modelled from the spec: the two permission dimensions. -/
inductive Capability where
  | read
  | write
deriving Repr, DecidableEq

/-- The empty `AccessList` (no explicit member). -/
def emptyAccessList : AccessList := { user_ids := [], group_ids := [] }

/-- Modelled from the spec: `policy.access_control[capability]`, with an
absent key resolving to the empty `AccessList` (owner-only, never an
exception). -/
def capList (ac : AccessControl) : Capability → AccessList
  | Capability.read => ac.read.getD emptyAccessList
  | Capability.write => ac.write.getD emptyAccessList

/-- Modelled from the spec: membership test of step 3 of `can` — the
principal's user id is in the list's `user_ids`, or one of the
principal's group ids is in the list's `group_ids`. -/
def grants (al : AccessList) (pr : Principal) : Bool :=
  al.user_ids.contains pr.user_id ||
    pr.group_ids.any (fun g => al.group_ids.contains g)

/-- Modelled from the spec: `can(principal, policy, capability)` of
section 4.2 — owner override first, then the public rule
(`access_control = null`: read allowed, write denied for non-owners,
the conservative reading of section 9), then the explicit lists with
write-implies-read for the `read` capability. -/
def can (pr : Principal) (pol : ResourcePolicy) : Capability → Bool :=
  fun c =>
    if pr.user_id == pol.owner_id then true
    else
      match pol.access_control with
      | none =>
        match c with
        | Capability.read => true
        | Capability.write => false
      | some ac =>
        match c with
        | Capability.read =>
          grants (capList ac Capability.read) pr ||
            grants (capList ac Capability.write) pr
        | Capability.write => grants (capList ac Capability.write) pr

/-- Modelled from the spec: `normalize(policy)` of section 4.1 —
deduplicate every id list and, when `access_control` is non-null, default
a missing `read` or `write` key to the empty `AccessList`. -/
def normalizePolicy (p : ResourcePolicy) : ResourcePolicy :=
  { p with
    access_control := p.access_control.map (fun ac =>
      { read := some
          { user_ids := dedupFirst (ac.read.getD emptyAccessList).user_ids
            group_ids := dedupFirst (ac.read.getD emptyAccessList).group_ids }
        write := some
          { user_ids := dedupFirst (ac.write.getD emptyAccessList).user_ids
            group_ids := dedupFirst (ac.write.getD emptyAccessList).group_ids } }) }

/-- Modelled from the spec: a failed per-resource update, as in the bulk
response documented by the implementation notes. -/
structure FailedUpdate where
  knowledge_base_id : String
  error : String
deriving Repr, DecidableEq

/-- Modelled from the spec: the aggregate of `applyBulk` (section 4.3). -/
structure BulkResult where
  success_count : Nat
  total_requested : Nat
  failed_updates : List FailedUpdate
deriving Repr, DecidableEq

/-- Success count and failure list accumulated by traversing the resource
ids in order and invoking `applyOne` exactly once per id. -/
def applyBulkAux (target : AccessControl)
    (applyOne : String → AccessControl → Except String ResourcePolicy) :
    List String → Nat × List FailedUpdate
  | [] => (0, [])
  | rid :: rest =>
    let r := applyBulkAux target applyOne rest
    match applyOne rid target with
    | Except.ok _ => (r.1 + 1, r.2)
    | Except.error e => (r.1, { knowledge_base_id := rid, error := e } :: r.2)

/-- Modelled from the spec: `applyBulk` of section 4.3 — every resource id
is attempted exactly once, failures are collected rather than thrown, and
the aggregate reports `success_count`, `total_requested` and the ordered
`failed_updates`. -/
def applyBulk (target : AccessControl) (resourceIds : List String)
    (applyOne : String → AccessControl → Except String ResourcePolicy) :
    BulkResult :=
  let r := applyBulkAux target applyOne resourceIds
  { success_count := r.1
    total_requested := resourceIds.length
    failed_updates := r.2 }

/-! ## Claims -/

/-- C1: `updateKnowledgePermissions` places `access_control = null` in the
request body if and only if the permissions object has zero keys, and for
a permissions object with at least one key it sends that object itself as
`access_control`. -/
theorem updateKnowledgePermissions_null_iff_empty (p : KnowledgePermissionsForm) :
    (updateKnowledgePermissionsBody p = none ↔ formKeyCount p = 0) ∧
    (updateKnowledgePermissionsBody p = some p ↔ formKeyCount p ≠ 0) := by
  unfold updateKnowledgePermissionsBody
  by_cases h : formKeyCount p = 0 <;> simp [h]

/-- C2: the owner is allowed every capability, whatever `access_control`
holds, including `null`; the override is the first rule `can` checks. -/
theorem can_owner_override (pr : Principal) (pol : ResourcePolicy)
    (c : Capability) (h : pr.user_id = pol.owner_id) :
    can pr pol c = true := by
  simp [can, h]

/-- C2 witness: the concrete owner of a public policy may write. -/
theorem can_owner_override_witness :
    (Principal.mk "u1" []).user_id = (ResourcePolicy.mk "r1" "u1" none).owner_id ∧
    can (Principal.mk "u1" []) (ResourcePolicy.mk "r1" "u1" none)
      Capability.write = true :=
  ⟨rfl, can_owner_override (Principal.mk "u1" [])
    (ResourcePolicy.mk "r1" "u1" none) Capability.write rfl⟩

theorem applyBulkAux_count (target : AccessControl)
    (applyOne : String → AccessControl → Except String ResourcePolicy)
    (ids : List String) :
    (applyBulkAux target applyOne ids).1 +
      (applyBulkAux target applyOne ids).2.length = ids.length := by
  induction ids with
  | nil => rfl
  | cons rid rest ih =>
    cases hf : applyOne rid target with
    | ok v =>
      simp only [applyBulkAux, hf, List.length_cons]
      omega
    | error e =>
      simp only [applyBulkAux, hf, List.length_cons]
      omega

/-- C3: for every input id sequence and every injected `applyOne` —
any mix of successes and failures — the `BulkResult` of `applyBulk`
satisfies `success_count + len(failed_updates) = total_requested =
len(resourceIds)`. -/
theorem applyBulk_counts (target : AccessControl) (resourceIds : List String)
    (applyOne : String → AccessControl → Except String ResourcePolicy) :
    (applyBulk target resourceIds applyOne).success_count +
        (applyBulk target resourceIds applyOne).failed_updates.length =
      (applyBulk target resourceIds applyOne).total_requested ∧
    (applyBulk target resourceIds applyOne).total_requested =
      resourceIds.length := by
  refine ⟨?_, rfl⟩
  simpa [applyBulk] using applyBulkAux_count target applyOne resourceIds

/-- C4: on a policy with non-null `access_control`, a principal granted by
the `write` list — directly by user id or through a group — can read,
whatever the `read` lists hold (write-implies-read). -/
theorem can_write_implies_read (pr : Principal) (pol : ResourcePolicy)
    (ac : AccessControl) (wl : AccessList)
    (hac : pol.access_control = some ac) (hw : ac.write = some wl)
    (hin : pr.user_id ∈ wl.user_ids ∨ ∃ g ∈ pr.group_ids, g ∈ wl.group_ids) :
    can pr pol Capability.read = true := by
  have hg : grants (capList ac Capability.write) pr = true := by
    simp only [capList, hw, Option.getD_some]
    simp only [grants, Bool.or_eq_true, List.any_eq_true, List.contains,
      List.elem_iff]
    rcases hin with h | ⟨g, hg1, hg2⟩
    · exact Or.inl h
    · exact Or.inr ⟨g, hg1, hg2⟩
  by_cases h : pr.user_id = pol.owner_id
  · simp [can, h]
  · simp [can, hac, h, hg]

/-- C4 witness: the spec section 8 scenario — owner `u1`, read list only
`u2`, write group `g1`; principal `u3` in `g1` reads via write. -/
theorem can_write_implies_read_witness :
    can (Principal.mk "u3" ["g1"])
      (ResourcePolicy.mk "r1" "u1"
        (some (AccessControl.mk (some (AccessList.mk ["u2"] []))
          (some (AccessList.mk [] ["g1"])))))
      Capability.read = true :=
  can_write_implies_read (Principal.mk "u3" ["g1"])
    (ResourcePolicy.mk "r1" "u1"
      (some (AccessControl.mk (some (AccessList.mk ["u2"] []))
        (some (AccessList.mk [] ["g1"])))))
    (AccessControl.mk (some (AccessList.mk ["u2"] []))
      (some (AccessList.mk [] ["g1"])))
    (AccessList.mk [] ["g1"]) rfl rfl
    (Or.inr ⟨"g1", by simp, by simp⟩)

/-- C5: with `access_control = null` a non-owner may read but not write —
public grants read to everyone, write only to the owner. -/
theorem can_public_read_not_write (pr : Principal) (pol : ResourcePolicy)
    (hac : pol.access_control = none) (hne : pr.user_id ≠ pol.owner_id) :
    can pr pol Capability.read = true ∧
    can pr pol Capability.write = false := by
  constructor <;> simp [can, hac, hne]

/-- C5 witness: non-owner `u2` on a concrete public policy. -/
theorem can_public_read_not_write_witness :
    can (Principal.mk "u2" []) (ResourcePolicy.mk "r1" "u1" none)
        Capability.read = true ∧
    can (Principal.mk "u2" []) (ResourcePolicy.mk "r1" "u1" none)
        Capability.write = false :=
  can_public_read_not_write (Principal.mk "u2" [])
    (ResourcePolicy.mk "r1" "u1" none) rfl (by decide)

theorem grants_empty (pr : Principal) : grants emptyAccessList pr = false := by
  simp [grants, emptyAccessList]

/-- C6: `can` is a total boolean function, and a malformed non-null
`access_control` whose read and write lists are both empty resolves to
owner-only access: the answer is exactly the owner test. -/
theorem can_malformed_owner_only (pr : Principal) (pol : ResourcePolicy)
    (ac : AccessControl) (c : Capability)
    (hac : pol.access_control = some ac)
    (hr : capList ac Capability.read = emptyAccessList)
    (hw : capList ac Capability.write = emptyAccessList) :
    can pr pol c = (pr.user_id == pol.owner_id) := by
  by_cases h : pr.user_id = pol.owner_id
  · simp [can, h]
  · cases c <;> simp [can, hac, hr, hw, grants_empty, h]

/-- C6 witness: a policy whose `access_control` is present but carries an
absent `read` key and an explicit empty `write` list denies a non-owner
and keeps the owner. -/
theorem can_malformed_owner_only_witness :
    can (Principal.mk "u2" ["g1"])
      (ResourcePolicy.mk "r1" "u1"
        (some (AccessControl.mk none (some (AccessList.mk [] [])))))
      Capability.read = ("u2" == "u1") :=
  can_malformed_owner_only (Principal.mk "u2" ["g1"])
    (ResourcePolicy.mk "r1" "u1"
      (some (AccessControl.mk none (some (AccessList.mk [] [])))))
    (AccessControl.mk none (some (AccessList.mk [] [])))
    Capability.read rfl rfl rfl

/-- C7: `normalize` is idempotent — deduplicating the id lists and
defaulting missing `read`/`write` keys is a fixpoint after one
application. -/
theorem normalizePolicy_idempotent (p : ResourcePolicy) :
    normalizePolicy (normalizePolicy p) = normalizePolicy p := by
  cases p with
  | mk rid oid ac =>
    cases ac with
    | none => simp [normalizePolicy]
    | some a => simp [normalizePolicy, dedupFirst_idem]

/-- C8 counterexample: a backend record without a `user_id` passes through
the listing transform with an empty owner identifier, so the listing does
return a policy whose owner identifier is empty. -/
theorem getAllKnowledgePermissions_empty_owner :
    ∃ r ∈ getAllKnowledgePermissions
        [RawKnowledgeBase.mk "kb1" "KB" none none none none none none none],
      r.user_id = "" :=
  ⟨transformKnowledgeBase
      (RawKnowledgeBase.mk "kb1" "KB" none none none none none none none),
    by simp [getAllKnowledgePermissions], rfl⟩

/-- C8 amended: every policy the listing returns carries the source
record's `user_id` defaulted by `|| ''` — non-empty exactly when the
backend record carries a non-empty `user_id`, and empty otherwise. -/
theorem getAllKnowledgePermissions_owner_eq (kbs : List RawKnowledgeBase)
    (r : KnowledgePermissionsResponse)
    (hr : r ∈ getAllKnowledgePermissions kbs) :
    ∃ kb ∈ kbs, r.user_id = kb.user_id.getD "" := by
  rcases List.mem_map.mp hr with ⟨kb, hkb, hEq⟩
  exact ⟨kb, hkb, by rw [← hEq]; rfl⟩

/-- C8 amended witness: the owner identifier of a transformed concrete
record equals its `user_id` under the `|| ''` default. -/
theorem getAllKnowledgePermissions_owner_eq_witness :
    ∃ kb ∈ [RawKnowledgeBase.mk "kb2" "KB2" none (some "u9")
        none none none none none],
      (transformKnowledgeBase
        (RawKnowledgeBase.mk "kb2" "KB2" none (some "u9")
          none none none none none)).user_id = kb.user_id.getD "" :=
  getAllKnowledgePermissions_owner_eq
    [RawKnowledgeBase.mk "kb2" "KB2" none (some "u9") none none none none none]
    (transformKnowledgeBase
      (RawKnowledgeBase.mk "kb2" "KB2" none (some "u9") none none none none none))
    (by simp [getAllKnowledgePermissions])

/-- C9: every non-public save from the modal (and the bulk panel) sends
identical `read` and `write` lists; the modal loads them as the
deduplicated union of the stored read and write lists, so a principal
that had only read access is in the sent `write` list of a load-then-save. -/
theorem handleSave_read_eq_write (kb : KnowledgePermissionsResponse)
    (userIds groupIds sel bulkU bulkG : List String) (u : String)
    (hu : u ∈ kbReadUserIds kb) :
    (handleSavePermissions false userIds groupIds).read
        = (handleSavePermissions false userIds groupIds).write
    ∧ (applyBulkPermissionsForm sel bulkU bulkG).access_control.read
        = (applyBulkPermissionsForm sel bulkU bulkG).access_control.write
    ∧ resetFormIsPublic kb = false
    ∧ (handleSavePermissions (resetFormIsPublic kb) (resetFormUserIds kb)
        (resetFormGroupIds kb)).write
        = some { user_ids := some (resetFormUserIds kb)
                 group_ids := some (resetFormGroupIds kb) }
    ∧ u ∈ resetFormUserIds kb := by
  have hsome : (kb.access_control.bind KBAccessControl.read).isSome = true := by
    cases hx : kb.access_control.bind KBAccessControl.read with
    | none =>
      have hnil : kbReadUserIds kb = [] := by simp [kbReadUserIds, hx]
      rw [hnil] at hu
      exact absurd hu (List.not_mem_nil u)
    | some v => rfl
  have hac : kb.access_control.isSome = true := by
    cases hx : kb.access_control with
    | none => rw [hx] at hsome; simp at hsome
    | some v => rfl
  have hpub : resetFormIsPublic kb = false := by
    simp [resetFormIsPublic, hac, hsome]
  refine ⟨rfl, rfl, hpub, ?_, ?_⟩
  · rw [hpub]; rfl
  · simp only [resetFormUserIds, mem_dedupFirst]
    exact List.mem_append_left _ hu

/-- A concrete knowledge base whose stored policy gives `u2` read-only
access and `u3` write access. -/
def wModalKB : KnowledgePermissionsResponse :=
  { id := "kb1"
    name := "KB"
    description := ""
    user_id := "u1"
    access_control := some
      { read := some { group_ids := some [], user_ids := some ["u2", "u3"] }
        write := some { group_ids := none, user_ids := some ["u3"] } }
    users_with_read_access := []
    users_with_write_access := []
    groups_with_read_access := []
    groups_with_write_access := [] }

/-- C9 witness: on the concrete knowledge base, the read-only user `u2`
ends up in the `write` list the modal would send. -/
theorem handleSave_read_eq_write_witness :
    "u2" ∈ kbReadUserIds wModalKB ∧
    ((handleSavePermissions false ["u1"] []).read
        = (handleSavePermissions false ["u1"] []).write
      ∧ (applyBulkPermissionsForm ["kb1"] ["u4"] ["g4"]).access_control.read
        = (applyBulkPermissionsForm ["kb1"] ["u4"] ["g4"]).access_control.write
      ∧ resetFormIsPublic wModalKB = false
      ∧ (handleSavePermissions (resetFormIsPublic wModalKB)
          (resetFormUserIds wModalKB) (resetFormGroupIds wModalKB)).write
          = some { user_ids := some (resetFormUserIds wModalKB)
                   group_ids := some (resetFormGroupIds wModalKB) }
      ∧ "u2" ∈ resetFormUserIds wModalKB) :=
  ⟨by simp [kbReadUserIds, wModalKB],
    handleSave_read_eq_write wModalKB ["u1"] [] ["kb1"] ["u4"] ["g4"] "u2"
      (by simp [kbReadUserIds, wModalKB])⟩

theorem resetFormIsPublic_iff_general (k : KnowledgePermissionsResponse) :
    resetFormIsPublic k = true ↔
      (k.access_control = none ∨
        ∃ ac, k.access_control = some ac ∧ ac.read = none ∧ ac.write = none) := by
  cases hx : k.access_control with
  | none => simp [resetFormIsPublic, hx]
  | some a =>
    cases hr : a.read with
    | some r => simp [resetFormIsPublic, hx, hr]
    | none =>
      cases hw : a.write with
      | some w => simp [resetFormIsPublic, hx, hr, hw]
      | none => simp [resetFormIsPublic, hx, hr, hw]

/-- C10: `resetForm` shows a knowledge base as public exactly when its
`access_control` is absent or is a present object with neither a `read`
nor a `write` key; and saving such a keyless-object policy unchanged
sends `access_control = null` rather than an owner-only object. -/
theorem resetForm_isPublic_iff (kb kb2 : KnowledgePermissionsResponse)
    (h2 : kb2.access_control = some { read := none, write := none }) :
    (resetFormIsPublic kb = true ↔
      (kb.access_control = none ∨
        ∃ ac, kb.access_control = some ac ∧ ac.read = none ∧ ac.write = none))
    ∧ resetFormIsPublic kb2 = true
    ∧ updateKnowledgePermissionsBody
        (handleSavePermissions (resetFormIsPublic kb2) (resetFormUserIds kb2)
          (resetFormGroupIds kb2)) = none := by
  have h2pub : resetFormIsPublic kb2 = true :=
    (resetFormIsPublic_iff_general kb2).mpr (Or.inr ⟨_, h2, rfl, rfl⟩)
  refine ⟨resetFormIsPublic_iff_general kb, h2pub, ?_⟩
  rw [h2pub]
  rfl

/-- A concrete knowledge base persisted with a non-null `access_control`
object that has neither a `read` nor a `write` key. -/
def wKeylessKB : KnowledgePermissionsResponse :=
  { id := "kb9"
    name := "KB9"
    description := ""
    user_id := "u1"
    access_control := some { read := none, write := none }
    users_with_read_access := []
    users_with_write_access := []
    groups_with_read_access := []
    groups_with_write_access := [] }

/-- C10 witness: the keyless-object policy is shown as public and a
resubmission sends `access_control = null`. -/
theorem resetForm_isPublic_iff_witness :
    wKeylessKB.access_control = some { read := none, write := none } ∧
    ((resetFormIsPublic wKeylessKB = true ↔
        (wKeylessKB.access_control = none ∨
          ∃ ac, wKeylessKB.access_control = some ac ∧
            ac.read = none ∧ ac.write = none))
      ∧ resetFormIsPublic wKeylessKB = true
      ∧ updateKnowledgePermissionsBody
          (handleSavePermissions (resetFormIsPublic wKeylessKB)
            (resetFormUserIds wKeylessKB) (resetFormGroupIds wKeylessKB)) = none) :=
  ⟨rfl, resetForm_isPublic_iff wKeylessKB wKeylessKB rfl⟩
